import Mathlib

/-!
# Verification of the Kai Capsule Service core

A shallow embedding of the capsule store and similarity engine of
`src/main.py` (the canonical source; `src/main_crud.py` is a malformed
historical draft of the same entity and is superseded by `main.py` for every
operation treated here).

Modelling conventions:
* SQLite's `capsules` table is a `List Capsule` in rowid (insertion) order;
  `SELECT *` enumerates it in that order.
* Python `float` arithmetic is idealised as `ℚ`; Python's `round(x, n)`
  (round-half-to-even on the scaled value) is `pyRound`.
* Ambient effects are explicit parameters: the md5 hex digest is an arbitrary
  function `String → String`, wall-clock strings (`strftime` seconds and the
  ISO timestamp) and the four `random.uniform` draws of the DATM scorer are
  arguments.
* Python truthiness of optional strings / lists (`x or default`) is `pyOrStr`
  / `pyOrTags`; `str.lower`/`str.split()` are `pyLower`/`pySplit`.
* FastAPI/pydantic request validation is `validate_capsule_create`: a missing
  required field raises a `ValidationError` before the handler runs.
-/

/-! ## Python-style rounding over ℚ

`round(x, n)` in Python rounds to `n` decimal digits, ties to even. -/

/-- Round a rational to the nearest integer, ties to the even integer
(the rounding mode of Python's built-in `round`). -/
def roundHalfEven (q : ℚ) : ℤ :=
  if q - ⌊q⌋ < 1/2 then ⌊q⌋
  else if (1 : ℚ)/2 < q - ⌊q⌋ then ⌊q⌋ + 1
  else if ⌊q⌋ % 2 = 0 then ⌊q⌋ else ⌊q⌋ + 1

/-- Python's `round(q, ndigits)` over ℚ. -/
def pyRound (q : ℚ) (ndigits : ℕ) : ℚ :=
  (roundHalfEven (q * 10 ^ ndigits) : ℚ) / 10 ^ ndigits

theorem roundHalfEven_intCast (n : ℤ) : roundHalfEven (n : ℚ) = n := by
  unfold roundHalfEven
  simp [Int.floor_intCast]

theorem floor_le_roundHalfEven (q : ℚ) : ⌊q⌋ ≤ roundHalfEven q := by
  unfold roundHalfEven
  split_ifs <;> omega

theorem roundHalfEven_le_floor_add_one (q : ℚ) : roundHalfEven q ≤ ⌊q⌋ + 1 := by
  unfold roundHalfEven
  split_ifs <;> omega

theorem roundHalfEven_mono {q₁ q₂ : ℚ} (h : q₁ ≤ q₂) :
    roundHalfEven q₁ ≤ roundHalfEven q₂ := by
  rcases lt_or_le ⌊q₁⌋ ⌊q₂⌋ with hf | hf
  · calc roundHalfEven q₁ ≤ ⌊q₁⌋ + 1 := roundHalfEven_le_floor_add_one q₁
      _ ≤ ⌊q₂⌋ := by omega
      _ ≤ roundHalfEven q₂ := floor_le_roundHalfEven q₂
  · have hfe : ⌊q₁⌋ = ⌊q₂⌋ := le_antisymm (Int.floor_le_floor h) hf
    have hq₁ : (⌊q₁⌋ : ℚ) ≤ q₁ := Int.floor_le q₁
    unfold roundHalfEven
    rw [← hfe]
    split_ifs <;> first | omega | linarith

theorem pyRound_mono {q₁ q₂ : ℚ} (n : ℕ) (h : q₁ ≤ q₂) :
    pyRound q₁ n ≤ pyRound q₂ n := by
  have h' : ((roundHalfEven (q₁ * 10 ^ n) : ℤ) : ℚ) ≤ roundHalfEven (q₂ * 10 ^ n) := by
    exact_mod_cast roundHalfEven_mono (mul_le_mul_of_nonneg_right h (by positivity))
  unfold pyRound
  rw [div_eq_mul_inv, div_eq_mul_inv]
  exact mul_le_mul_of_nonneg_right h' (by positivity)

/-- Evaluate `pyRound` when the scaled value is an integer `m`; every score the
service produces is of this shape. -/
theorem pyRound_eval (q : ℚ) (n : ℕ) (m : ℤ) (h : q * 10 ^ n = (m : ℚ)) :
    pyRound q n = (m : ℚ) / 10 ^ n := by
  unfold pyRound
  rw [h, roundHalfEven_intCast]

/-! ## Python string helpers -/

/-- Helper of `pySplit`: split a character list on whitespace runs, dropping
empty fragments, with `acc` the (reversed) current fragment. -/
def wsSplitAux (acc : List Char) : List Char → List (List Char)
  | [] => if acc = [] then [] else [acc.reverse]
  | c :: cs =>
    if c.isWhitespace then
      (if acc = [] then wsSplitAux [] cs else acc.reverse :: wsSplitAux [] cs)
    else wsSplitAux (c :: acc) cs

/-- Python's `str.split()` with no argument: split on runs of whitespace and
drop empty tokens. -/
def pySplit (s : String) : List String := (wsSplitAux [] s.data).map String.mk

/-- Python's `str.lower()` (character-wise lowering). -/
def pyLower (s : String) : String := String.mk (s.data.map Char.toLower)

/-- Byte-wise (memcmp) strict order on character lists; on UTF-8 data this is
exactly SQLite's default TEXT comparison, since UTF-8 preserves code-point
order. -/
def bytesLt : List Char → List Char → Bool
  | [], [] => false
  | [], _ :: _ => true
  | _ :: _, [] => false
  | a :: as, b :: bs => if a < b then true else if b < a then false else bytesLt as bs

/-- SQLite's default TEXT ordering on strings (memcmp of the UTF-8 bytes). -/
def strLt (a b : String) : Bool := bytesLt a.data b.data

theorem bytesLt_asymm : ∀ as bs : List Char, bytesLt as bs = true → bytesLt bs as = false
  | [], [] => by simp [bytesLt]
  | [], _ :: _ => by simp [bytesLt]
  | _ :: _, [] => by simp [bytesLt]
  | a :: as, b :: bs => by
    simp only [bytesLt]
    rcases lt_trichotomy a b with hab | hab | hab
    · intro _
      rw [if_neg (lt_asymm hab), if_pos hab]
    · subst hab
      simpa [lt_self_iff_false] using bytesLt_asymm as bs
    · intro h
      rw [if_neg (lt_asymm hab), if_pos hab] at h
      exact absurd h Bool.false_ne_true

theorem bytesLt_not_trans :
    ∀ as bs cs : List Char,
      bytesLt as bs = false → bytesLt bs cs = false → bytesLt as cs = false
  | [], [], cs => fun _ h2 => h2
  | [], _ :: _, _ => by simp [bytesLt]
  | _ :: _, [], [] => by simp [bytesLt]
  | _ :: _, [], _ :: _ => by simp [bytesLt]
  | _ :: _, _ :: _, [] => by simp [bytesLt]
  | a :: as, b :: bs, c :: cs => by
    simp only [bytesLt]
    intro h1 h2
    have hba : ¬ a < b := by
      intro hlt; rw [if_pos hlt] at h1; exact absurd h1 (by simp)
    have hcb : ¬ b < c := by
      intro hlt; rw [if_pos hlt] at h2; exact absurd h2 (by simp)
    have hca : ¬ a < c := fun hlt =>
      hba (lt_of_lt_of_le hlt (le_of_not_lt hcb))
    rw [if_neg hca]
    by_cases hac : c < a
    · rw [if_pos hac]
    · rw [if_neg hac]
      have hab : a = b :=
        le_antisymm ((le_of_not_lt hac).trans (le_of_not_lt hcb)) (le_of_not_lt hba)
      have hbc : b = c :=
        le_antisymm ((le_of_not_lt hba).trans (le_of_not_lt hac)) (le_of_not_lt hcb)
      subst hab
      subst hbc
      simp only [lt_self_iff_false, if_false] at h1 h2
      exact bytesLt_not_trans as bs cs h1 h2

/-! ## A stable insertion sort

Models both Python's stable `list.sort(key=..., reverse=True)` and SQLite's
`ORDER BY ... DESC`.  `lt x y = true` means the incoming element `x` must sink
below the already-placed element `y`. -/

/-- Insert `x` into `l`, keeping every `y` with `lt x y` in front of it. -/
def insertDescBy (lt : α → α → Bool) (x : α) : List α → List α
  | [] => [x]
  | y :: ys => if lt x y then y :: insertDescBy lt x ys else x :: y :: ys

/-- Stable insertion sort: elements end up in an order where no earlier element
is `lt`-below a later one. -/
def sortDescBy (lt : α → α → Bool) (l : List α) : List α :=
  l.foldr (insertDescBy lt) []

theorem insertDescBy_perm (lt : α → α → Bool) (x : α) :
    ∀ l : List α, List.Perm (insertDescBy lt x l) (x :: l)
  | [] => List.Perm.refl _
  | y :: ys => by
    unfold insertDescBy
    split
    · exact ((insertDescBy_perm lt x ys).cons y).trans (List.Perm.swap x y ys)
    · exact List.Perm.refl _

theorem sortDescBy_perm (lt : α → α → Bool) :
    ∀ l : List α, List.Perm (sortDescBy lt l) l
  | [] => List.Perm.refl _
  | x :: xs => by
    unfold sortDescBy
    simpa [List.foldr] using
      ((insertDescBy_perm lt x (sortDescBy lt xs)).trans
        ((sortDescBy_perm lt xs).cons x))

theorem mem_sortDescBy {lt : α → α → Bool} {l : List α} {a : α} :
    a ∈ sortDescBy lt l ↔ a ∈ l := (sortDescBy_perm lt l).mem_iff

theorem insertDescBy_pairwise (lt : α → α → Bool)
    (hasymm : ∀ a b, lt a b = true → lt b a = false)
    (htrans : ∀ a b c, lt a b = false → lt b c = false → lt a c = false)
    (x : α) : ∀ l : List α, l.Pairwise (fun a b => lt a b = false) →
      (insertDescBy lt x l).Pairwise (fun a b => lt a b = false)
  | [], _ => by simp [insertDescBy]
  | y :: ys, hl => by
    rcases List.pairwise_cons.mp hl with ⟨hy, hys⟩
    unfold insertDescBy
    split
    · next hxy =>
      refine List.pairwise_cons.mpr ⟨?_, insertDescBy_pairwise lt hasymm htrans x ys hys⟩
      intro z hz
      rcases List.mem_cons.mp ((insertDescBy_perm lt x ys).mem_iff.mp hz) with hzx | hz'
      · rw [hzx]; exact hasymm x y hxy
      · exact hy z hz'
    · next hxy =>
      have hxy' : lt x y = false := Bool.eq_false_iff.mpr hxy
      refine List.pairwise_cons.mpr ⟨?_, hl⟩
      intro z hz
      rcases List.mem_cons.mp hz with rfl | hz'
      · exact hxy'
      · exact htrans x y z hxy' (hy z hz')

theorem sortDescBy_pairwise (lt : α → α → Bool)
    (hasymm : ∀ a b, lt a b = true → lt b a = false)
    (htrans : ∀ a b c, lt a b = false → lt b c = false → lt a c = false) :
    ∀ l : List α, (sortDescBy lt l).Pairwise (fun a b => lt a b = false)
  | [] => List.Pairwise.nil
  | x :: xs => by
    unfold sortDescBy
    exact insertDescBy_pairwise lt hasymm htrans x _
      (sortDescBy_pairwise lt hasymm htrans xs)

/-! ## Data model (`src/main.py`)

One row of the SQLite `capsules` table, as produced by `create_capsule`.
`metadata` is the serialized JSON column value, passed through opaquely. -/

structure Capsule where
  id : String
  title : String
  content : String
  source : Option String
  domain : String
  tags : List String
  datm_score : ℚ
  author : Option String
  created_at : String
  updated_at : String
  metadata : Option String
  deriving Repr

/-- The capsule store: the `capsules` table in rowid (insertion) order. -/
abbrev Store := List Capsule

/-- A `POST /capsules` request body before pydantic validation.  `title` and
`content` are declared required (`title: str`), so `none` models a missing
field; pydantic does not constrain string contents, so the empty string is a
legal value.  `author` carries pydantic's declared default `"Kai"`. -/
structure CapsuleCreateRaw where
  title : Option String
  content : Option String
  source : Option String := none
  domain : Option String := none
  tags : Option (List String) := none
  author : Option String := some "Kai"
  metadata : Option String := none

/-- One element of `detect_collisions`' result list. -/
structure CollisionResult where
  capsule_id : String
  title : String
  domain : String
  score : ℚ
  deriving Repr

/-- The error kinds the service surfaces: HTTP 404 (`胶囊不存在`) and pydantic
request validation failure. -/
inductive ServiceError where
  | notFound
  | validationError
  deriving Repr, DecidableEq

/-! ## Helper functions of `src/main.py` -/

/-- Python `s or default` for an optional string: `None` and `""` are falsy. -/
def pyOrStr (s : Option String) (default : String) : String :=
  match s with
  | none => default
  | some v => if v = "" then default else v

/-- Python `tags or default` for an optional list: `None` and `[]` are falsy. -/
def pyOrTags (t : Option (List String)) (default : List String) : List String :=
  match t with
  | none => default
  | some ts => if ts = [] then default else ts

/-- Embeds `generate_capsule_id` (main.py:97-101): `timestamp` is
`datetime.utcnow().strftime("%Y%m%d%H%M%S")` (second resolution) and
`md5hex8` is the first 8 hex chars of the md5 digest, passed in abstractly. -/
def generate_capsule_id (md5hex8 : String → String) (title timestamp : String) : String :=
  "capsule_" ++ timestamp ++ "_" ++ md5hex8 (title ++ timestamp)

/-- Embeds `calculate_datm_score` (main.py:103-110): the four `random.uniform` draws
are explicit arguments; the `capsule` dict argument is unused by the code. -/
def calculate_datm_score (capsule : α) (truth goodness beauty intelligence : ℚ) : ℚ :=
  pyRound ((truth + goodness + beauty + intelligence) / 4) 2

/-- The fixed stopword set of `extract_keywords` (main.py:115-119). -/
def stopwords : List String :=
  ["the", "a", "an", "is", "are", "was", "were", "be", "been",
   "being", "have", "has", "had", "do", "does", "did", "will",
   "would", "could", "should", "may", "might", "must", "shall",
   "of", "in", "for", "on", "with", "at", "by", "from", "as",
   "into", "through", "during", "before", "after", "above"]

/-- Embeds `extract_keywords` (main.py:112-121): lower-case, split on whitespace,
keep tokens longer than 3 chars that are not stopwords, take the first 5,
then `list(set(...))` (here `dedup`; the claims never depend on set order). -/
def extract_keywords (content : String) : List String :=
  let words := pySplit (pyLower content)
  ((words.filter (fun w => decide (3 < w.length) && !(stopwords.contains w))).take 5).dedup

/-- pydantic validation of `CapsuleCreate`: a missing required field
(`title: str`, `content: str`) raises `ValidationError` before the route
handler runs; any present strings — empty included — pass. -/
def validate_capsule_create (r : CapsuleCreateRaw) : Except ServiceError (String × String) :=
  match r.title, r.content with
  | some t, some c => .ok (t, c)
  | _, _ => .error .validationError

/-! ## Service operations (`src/main.py`) -/

/-- Embeds `create_capsule` (main.py:135-169).  `timestamp` is the second-resolution
`strftime` string used for the id, `now` the ISO timestamp stored in
`created_at`/`updated_at`, and the last four arguments the scorer's random
draws.  Returns the store after the `INSERT` together with the new row. -/
def create_capsule (md5hex8 : String → String) (timestamp now : String)
    (store : Store) (raw : CapsuleCreateRaw)
    (truth goodness beauty intelligence : ℚ) :
    Except ServiceError (Store × Capsule) :=
  match validate_capsule_create raw with
  | .error e => .error e
  | .ok (title, content) =>
    let capsule_id := generate_capsule_id md5hex8 title timestamp
    let tags := pyOrTags raw.tags (extract_keywords content)
    let datm_score := calculate_datm_score () truth goodness beauty intelligence
    let cap : Capsule :=
      { id := capsule_id, title := title, content := content,
        source := raw.source, domain := pyOrStr raw.domain "general",
        tags := tags, datm_score := datm_score, author := raw.author,
        created_at := now, updated_at := now, metadata := raw.metadata }
    .ok (store ++ [cap], cap)

/-- The store as left behind by a `create_capsule` call (unchanged on a
validation failure: the rejection happens before the `INSERT`). -/
def storeAfterCreate (md5hex8 : String → String) (timestamp now : String)
    (store : Store) (raw : CapsuleCreateRaw)
    (truth goodness beauty intelligence : ℚ) : Store :=
  match create_capsule md5hex8 timestamp now store raw truth goodness beauty intelligence with
  | .ok (s, _) => s
  | .error _ => store

/-- Embeds `list_capsules` (main.py:171-205).  `WHERE` clauses are only added for
truthy parameters (`if domain:` / `if min_score:`), rows are ordered by
`created_at DESC` (SQLite memcmp TEXT order), and the SQL `LIMIT` is
`min(limit, 100)` — which SQLite treats as *no limit at all* when negative. -/
def list_capsules (store : Store) (domain : Option String) (min_score : Option ℚ)
    (limit : ℤ) : List Capsule :=
  let rows := store.filter (fun c =>
    (match domain with
     | none => true
     | some d => if d = "" then true else c.domain == d) &&
    (match min_score with
     | none => true
     | some m => if m = 0 then true else decide (m ≤ c.datm_score)))
  let sorted := sortDescBy (fun a b => strLt a.created_at b.created_at) rows
  let eff := min limit 100
  if eff < 0 then sorted else sorted.take eff.toNat

/-- Embeds `get_capsule` (main.py:207-229): first row with the given id, else 404. -/
def get_capsule (store : Store) (capsule_id : String) : Except ServiceError Capsule :=
  match store.find? (fun c => c.id == capsule_id) with
  | none => .error .notFound
  | some c => .ok c

/-- Embeds `delete_capsule` (main.py:231-242): `DELETE ... WHERE id = ?`, then 404
when `rowcount` is zero (nothing was removed). -/
def delete_capsule (store : Store) (capsule_id : String) : Except ServiceError Store :=
  let newStore := store.filter (fun c => decide (c.id ≠ capsule_id))
  if newStore.length = store.length then .error .notFound else .ok newStore

/-- The store as left behind by a `delete_capsule` call (a 404 removes no
row). -/
def storeAfterDelete (store : Store) (capsule_id : String) : Store :=
  match delete_capsule store capsule_id with
  | .ok s => s
  | .error _ => store

/-- The per-candidate score of `detect_collisions` (main.py:262-273):
tag sets are the deduplicated JSON tag lists; similarity is shared-tag count
over the larger set size, or 0 when either set is empty; a matching domain
multiplies by 1.2; the result is rounded to 3 decimals. -/
def collisionScore (target_tags : List String) (target_domain : String)
    (c : Capsule) : ℚ :=
  let capsule_tags := c.tags.dedup
  let similarity : ℚ :=
    if target_tags ≠ [] ∧ capsule_tags ≠ [] then
      ((target_tags.filter (fun w => capsule_tags.contains w)).length : ℚ) /
        (max target_tags.length capsule_tags.length : ℚ)
    else 0
  let domain_bonus : ℚ := if c.domain = target_domain then 12/10 else 1
  pyRound (similarity * domain_bonus) 3

/-- The scored candidate list of `detect_collisions`: every stored capsule
other than the target (`WHERE id != ?`), in scan order, with its score. -/
def scoredCandidates (store : Store) (capsule_id : String) (target : Capsule) :
    List CollisionResult :=
  (store.filter (fun c => !(c.id == capsule_id))).map (fun c =>
    { capsule_id := c.id, title := c.title, domain := c.domain,
      score := collisionScore target.tags.dedup target.domain c })

/-- Embeds `detect_collisions` (main.py:244-284): 404 if the target id is absent;
otherwise keep candidates with `score >= threshold`, sort them descending by
score (Python's stable sort), and return the first 20 (`collisions[:20]` —
the 20 is hard-coded; the endpoint takes no limit parameter). -/
def detect_collisions (store : Store) (capsule_id : String) (threshold : ℚ) :
    Except ServiceError (List CollisionResult) :=
  match store.find? (fun c => c.id == capsule_id) with
  | none => .error .notFound
  | some target =>
    .ok ((sortDescBy (fun a b => decide (a.score < b.score))
      ((scoredCandidates store capsule_id target).filter
        (fun r => decide (threshold ≤ r.score)))).take 20)

/-! ## Concrete fixtures for scenarios, witnesses and counterexamples -/

/-- A stand-in for the md5 hex digest when instantiating concrete scenarios
(the service's behaviour under scrutiny never depends on the digest value). -/
def mockHash (s : String) : String := toString s.length

/-- Scenario capsule A: tags `{ocean, climate}`, domain `science`. -/
def capsuleA : Capsule :=
  { id := "A", title := "Capsule A", content := "ocean climate study",
    source := none, domain := "science", tags := ["ocean", "climate"],
    datm_score := 80, author := some "Kai",
    created_at := "2026-01-01T00:00:00", updated_at := "2026-01-01T00:00:00",
    metadata := none }

/-- Scenario capsule B: tags `{ocean, policy}`, domain `science`. -/
def capsuleB : Capsule :=
  { id := "B", title := "Capsule B", content := "ocean policy review",
    source := none, domain := "science", tags := ["ocean", "policy"],
    datm_score := 80, author := some "Kai",
    created_at := "2026-01-02T00:00:00", updated_at := "2026-01-02T00:00:00",
    metadata := none }

/-- The collision row `detect_collisions` reports for B against target A. -/
def collisionB : CollisionResult :=
  { capsule_id := "B", title := "Capsule B", domain := "science", score := 3/5 }

/-- A create request whose `title` is the *empty string* (present, hence
valid for pydantic). -/
def rawEmptyTitle : CapsuleCreateRaw :=
  { title := some "", content := some "ocean warming evidence" }

/-- A create request missing its `title` field altogether. -/
def rawNoTitle : CapsuleCreateRaw :=
  { title := none, content := some "policy analysis" }

/-- Two create requests sharing a title but nothing else. -/
def rawTwin1 : CapsuleCreateRaw :=
  { title := some "Ocean report", content := some "first body text here" }

/-- See `rawTwin1`. -/
def rawTwin2 : CapsuleCreateRaw :=
  { title := some "Ocean report", content := some "a completely different body" }

/-- Fallback pair for reading off a `create_capsule` result. -/
def dummyPair : Store × Capsule :=
  ([], { id := "", title := "", content := "", source := none, domain := "",
         tags := [], datm_score := 0, author := none, created_at := "",
         updated_at := "", metadata := none })

/-! ## C6 — tag extraction bounds -/

/-- C6: for every content string, the derived tag set has at most 5 members,
contains no stopword and no token of length ≤ 3; all-stopword content and the
empty string yield the empty set (a valid result, not an error). -/
theorem C6_extract_keywords_spec :
    (∀ content : String,
        (extract_keywords content).length ≤ 5 ∧
        ∀ w ∈ extract_keywords content, ¬ w ∈ stopwords ∧ 3 < w.length) ∧
    (∀ content : String,
        (∀ w ∈ pySplit (pyLower content), w ∈ stopwords) →
        extract_keywords content = []) ∧
    extract_keywords "" = [] := by
  refine ⟨fun content => ⟨?_, ?_⟩, fun content h => ?_, by decide⟩
  · simp only [extract_keywords]
    calc ((((pySplit (pyLower content)).filter
          (fun w => decide (3 < w.length) && !(stopwords.contains w))).take 5).dedup).length
        ≤ (((pySplit (pyLower content)).filter
          (fun w => decide (3 < w.length) && !(stopwords.contains w))).take 5).length :=
          List.Sublist.length_le (List.dedup_sublist _)
      _ ≤ 5 := List.length_take_le _ _
  · intro w hw
    simp only [extract_keywords] at hw
    have hw' := List.take_subset 5 _ (List.mem_dedup.mp hw)
    have hp := (List.mem_filter.mp hw').2
    rw [Bool.and_eq_true] at hp
    constructor
    · intro hmem
      have hcontains := hp.2
      simp [hmem] at hcontains
    · exact of_decide_eq_true hp.1
  · simp only [extract_keywords]
    have hnil : (pySplit (pyLower content)).filter
        (fun w => decide (3 < w.length) && !(stopwords.contains w)) = [] := by
      rw [List.filter_eq_nil_iff]
      intro w hw
      have hmem := h w hw
      simp [hmem]
    rw [hnil]
    rfl

/-- Witness for C6 at concrete inputs. -/
theorem C6_extract_keywords_spec_witness :
    (extract_keywords "the ocean is warming rapidly").length ≤ 5 ∧
    (¬ "ocean" ∈ stopwords ∧ 3 < ("ocean" : String).length) ∧
    extract_keywords "the a an of" = [] :=
  ⟨(C6_extract_keywords_spec.1 "the ocean is warming rapidly").1,
   (C6_extract_keywords_spec.1 "the ocean is warming rapidly").2 "ocean" (by decide),
   C6_extract_keywords_spec.2.1 "the a an of" (by decide)⟩

/-! ## C9 — DATM quality score -/

/-- C9: the quality score is the 2-decimal rounding of the average of the four
sub-dimension draws; within the code's `random.uniform` ranges it lies in
[0, 100]; and it does not depend on the capsule argument at all. -/
theorem C9_datm_score_spec :
    (∀ (α : Type) (capsule : α) (truth goodness beauty intelligence : ℚ),
        calculate_datm_score capsule truth goodness beauty intelligence =
          pyRound ((truth + goodness + beauty + intelligence) / 4) 2) ∧
    (∀ (α β : Type) (c₁ : α) (c₂ : β) (truth goodness beauty intelligence : ℚ),
        calculate_datm_score c₁ truth goodness beauty intelligence =
          calculate_datm_score c₂ truth goodness beauty intelligence) ∧
    (∀ truth goodness beauty intelligence : ℚ,
        70 ≤ truth → truth ≤ 95 → 65 ≤ goodness → goodness ≤ 90 →
        60 ≤ beauty → beauty ≤ 85 → 70 ≤ intelligence → intelligence ≤ 95 →
        0 ≤ calculate_datm_score () truth goodness beauty intelligence ∧
          calculate_datm_score () truth goodness beauty intelligence ≤ 100) := by
  refine ⟨fun _ _ _ _ _ _ => rfl, fun _ _ _ _ _ _ _ _ => rfl, ?_⟩
  intro t g b i ht1 ht2 hg1 hg2 hb1 hb2 hi1 hi2
  unfold calculate_datm_score
  have h0 : pyRound 0 2 = 0 := by
    rw [pyRound_eval 0 2 0 (by norm_num)]; norm_num
  have h100 : pyRound 100 2 = 100 := by
    rw [pyRound_eval 100 2 10000 (by norm_num)]; norm_num
  constructor
  · have hle := pyRound_mono 2 (show (0:ℚ) ≤ (t + g + b + i) / 4 by linarith)
    rwa [h0] at hle
  · have hle := pyRound_mono 2 (show (t + g + b + i) / 4 ≤ 100 by linarith)
    rwa [h100] at hle

/-- Witness for C9 at the draws (80, 80, 80, 80). -/
theorem C9_datm_score_spec_witness :
    0 ≤ calculate_datm_score () (80:ℚ) 80 80 80 ∧
      calculate_datm_score () (80:ℚ) 80 80 80 ≤ 100 :=
  C9_datm_score_spec.2.2 80 80 80 80 (by norm_num) (by norm_num) (by norm_num)
    (by norm_num) (by norm_num) (by norm_num) (by norm_num) (by norm_num)

/-! ## C4 — id generation is NOT collision-free within one clock second -/

/-- C4 (code behaviour at the claim's failing input): the generated id is a
pure function of the title and the *second-resolution* timestamp, so two
creates with the same title in the same clock second — whatever their
contents, stores or random draws — receive the *same* id, contradicting the
claim that freshly generated ids always differ. -/
theorem C4_same_second_same_title_id_collision
    (md5hex8 : String → String) (timestamp now₁ now₂ : String)
    (store₁ store₂ : Store) (raw₁ raw₂ : CapsuleCreateRaw)
    (t₁ g₁ b₁ i₁ t₂ g₂ b₂ i₂ : ℚ) (p₁ p₂ : Store × Capsule)
    (htitle : raw₁.title = raw₂.title)
    (h₁ : create_capsule md5hex8 timestamp now₁ store₁ raw₁ t₁ g₁ b₁ i₁ = .ok p₁)
    (h₂ : create_capsule md5hex8 timestamp now₂ store₂ raw₂ t₂ g₂ b₂ i₂ = .ok p₂) :
    p₁.2.id = p₂.2.id := by
  rcases hT₁ : raw₁.title with _ | title₁
  · simp [create_capsule, validate_capsule_create, hT₁] at h₁
  · rcases hC₁ : raw₁.content with _ | content₁
    · simp [create_capsule, validate_capsule_create, hT₁, hC₁] at h₁
    · rcases hT₂ : raw₂.title with _ | title₂
      · simp [create_capsule, validate_capsule_create, hT₂] at h₂
      · rcases hC₂ : raw₂.content with _ | content₂
        · simp [create_capsule, validate_capsule_create, hT₂, hC₂] at h₂
        · simp only [create_capsule, validate_capsule_create, hT₁, hC₁, hT₂, hC₂] at h₁ h₂
          have ht : title₁ = title₂ := by
            rw [hT₁, hT₂] at htitle
            exact Option.some.inj htitle
          subst ht
          rcases h₁.symm.trans rfl with rfl | _
          · rcases h₂.symm.trans rfl with rfl | _
            · rfl

/-- Witness for C4: two same-second creates with title "Ocean report" but
different contents, stores and draws produce the identical id. -/
theorem C4_same_second_same_title_id_collision_witness :
    ((create_capsule mockHash "20260101120000" "2026-01-01T12:00:00.000001"
        [] rawTwin1 80 80 80 80).toOption.getD dummyPair).2.id =
    ((create_capsule mockHash "20260101120000" "2026-01-01T12:00:00.999999"
        [] rawTwin2 75 75 75 75).toOption.getD dummyPair).2.id :=
  C4_same_second_same_title_id_collision mockHash "20260101120000"
    "2026-01-01T12:00:00.000001" "2026-01-01T12:00:00.999999" [] []
    rawTwin1 rawTwin2 80 80 80 80 75 75 75 75 _ _ rfl rfl rfl

/-! ## C3 — empty title/content is NOT rejected -/

/-- C3 counterexample: a create call whose title is the empty string *succeeds*
and inserts a row — pydantic only rejects missing fields, not empty strings,
so no ValidationError is raised and the store is mutated. -/
theorem C3_counterexample :
    (create_capsule mockHash "20260101120000" "2026-01-01T12:00:00"
        [] rawEmptyTitle 80 80 80 80).isOk = true ∧
    storeAfterCreate mockHash "20260101120000" "2026-01-01T12:00:00"
        [] rawEmptyTitle 80 80 80 80 ≠ [] := by
  constructor
  · rfl
  · intro h
    simp [storeAfterCreate, create_capsule, validate_capsule_create, rawEmptyTitle] at h

/-- C3 (amended): create fails with a ValidationError — before any store
mutation — exactly when a *required field is missing* (absent title or
content); present-but-empty strings pass validation. -/
theorem C3_missing_field_rejected (md5hex8 : String → String) (timestamp now : String)
    (store : Store) (raw : CapsuleCreateRaw) (t g b i : ℚ)
    (h : raw.title = none ∨ raw.content = none) :
    create_capsule md5hex8 timestamp now store raw t g b i = .error .validationError ∧
    storeAfterCreate md5hex8 timestamp now store raw t g b i = store := by
  have hv : validate_capsule_create raw = .error .validationError := by
    unfold validate_capsule_create
    rcases hT : raw.title with _ | t' <;> rcases hC : raw.content with _ | c' <;>
      simp_all
  constructor
  · unfold create_capsule
    rw [hv]
  · unfold storeAfterCreate create_capsule
    rw [hv]

/-- Witness for C3 (amended) at a request missing its title. -/
theorem C3_missing_field_rejected_witness :
    create_capsule mockHash "ts" "now" [] rawNoTitle 80 80 80 80
        = .error .validationError ∧
    storeAfterCreate mockHash "ts" "now" [] rawNoTitle 80 80 80 80 = [] :=
  C3_missing_field_rejected mockHash "ts" "now" [] rawNoTitle 80 80 80 80 (Or.inl rfl)

/-! ## C5 — score bounds and monotonicity in the overlap count -/

/-- The collision score as a function of the counts the code derives it from:
shared-tag count, the two tag-set sizes, and whether the domains match. -/
def scoreFromCounts (overlap tlen clen : ℕ) (same_domain : Bool) : ℚ :=
  let similarity : ℚ :=
    if tlen ≠ 0 ∧ clen ≠ 0 then (overlap : ℚ) / (max tlen clen : ℚ) else 0
  pyRound (similarity * (if same_domain then 12/10 else 1)) 3

/-- Bounds transfer through the 3-decimal rounding. -/
theorem pyRound3_bounds {q : ℚ} (h0 : 0 ≤ q) (h1 : q ≤ 6/5) :
    0 ≤ pyRound q 3 ∧ pyRound q 3 ≤ 6/5 := by
  have hz : pyRound 0 3 = 0 := by
    rw [pyRound_eval 0 3 0 (by norm_num)]; norm_num
  have ht : pyRound (6/5) 3 = 6/5 := by
    rw [pyRound_eval (6/5) 3 1200 (by norm_num)]; norm_num
  constructor
  · have hm := pyRound_mono 3 h0; rwa [hz] at hm
  · have hm := pyRound_mono 3 h1; rwa [ht] at hm

/-- C5: every candidate score lies in [0, 1.2], and — as a function of the
counts, with the domains and tag-set sizes held fixed — the score is
monotonically non-decreasing in the tag overlap count. -/
theorem C5_score_bounds_and_monotonicity :
    (∀ (target_tags : List String) (target_domain : String) (c : Capsule),
        0 ≤ collisionScore target_tags target_domain c ∧
        collisionScore target_tags target_domain c ≤ 6/5) ∧
    (∀ (target_tags : List String) (target_domain : String) (c : Capsule),
        collisionScore target_tags target_domain c =
          scoreFromCounts
            ((target_tags.filter (fun w => c.tags.dedup.contains w)).length)
            target_tags.length c.tags.dedup.length (c.domain == target_domain)) ∧
    (∀ (o₁ o₂ tlen clen : ℕ) (d : Bool), o₁ ≤ o₂ →
        scoreFromCounts o₁ tlen clen d ≤ scoreFromCounts o₂ tlen clen d) := by
  refine ⟨fun tt td c => ?_, fun tt td c => ?_, fun o₁ o₂ tlen clen d h => ?_⟩
  · unfold collisionScore
    set sim : ℚ := if tt ≠ [] ∧ c.tags.dedup ≠ [] then
        ((tt.filter (fun w => c.tags.dedup.contains w)).length : ℚ) /
          (max tt.length c.tags.dedup.length : ℚ) else 0 with hsim
    set bonus : ℚ := if c.domain = td then 12/10 else 1 with hbonus
    have hb0 : 0 ≤ bonus := by rw [hbonus]; split_ifs <;> norm_num
    have hb1 : bonus ≤ 12/10 := by rw [hbonus]; split_ifs <;> norm_num
    have hs0 : 0 ≤ sim := by
      rw [hsim]; split_ifs with hc
      · positivity
      · exact le_refl 0
    have hs1 : sim ≤ 1 := by
      rw [hsim]; split_ifs with hc
      · have hmaxpos : (0:ℚ) < (max tt.length c.tags.dedup.length : ℚ) := by
          have hp : 0 < tt.length := List.length_pos.mpr hc.1
          exact_mod_cast lt_of_lt_of_le hp (le_max_left _ _)
        rw [div_le_one hmaxpos]
        exact_mod_cast le_trans (List.length_filter_le _ _) (le_max_left _ _)
      · norm_num
    exact pyRound3_bounds (mul_nonneg hs0 hb0)
      (le_trans (mul_le_mul hs1 hb1 hb0 zero_le_one) (by norm_num))
  · unfold collisionScore scoreFromCounts
    by_cases h1 : tt = [] <;> by_cases h2 : c.tags.dedup = [] <;>
      by_cases h3 : c.domain = td <;>
        simp [h1, h2, h3, List.length_eq_zero]
  · unfold scoreFromCounts
    apply pyRound_mono
    have hbonus0 : (0:ℚ) ≤ (if d then 12/10 else 1) := by
      cases d <;> norm_num
    apply mul_le_mul_of_nonneg_right _ hbonus0
    split_ifs with hc
    · rw [div_eq_mul_inv, div_eq_mul_inv]
      exact mul_le_mul_of_nonneg_right (by exact_mod_cast h) (by positivity)
    · exact le_refl 0

/-- Witness for C5 at overlaps 1 ≤ 2 over two 2-element tag sets in the same
domain. -/
theorem C5_score_bounds_and_monotonicity_witness :
    (1 : ℕ) ≤ 2 ∧ scoreFromCounts 1 2 2 true ≤ scoreFromCounts 2 2 2 true :=
  ⟨by decide, C5_score_bounds_and_monotonicity.2.2 1 2 2 2 true (by decide)⟩

/-! ## C1 — the score formula and the spec's two-capsule scenario -/

/-- The claim's similarity formula, written as the spec states it:
`|target_tags ∩ candidate_tags| / max(|target_tags|, |candidate_tags|)`, and 0
when either tag set is empty. -/
def specSimilarity (target_tags candidate_tags : List String) : ℚ :=
  if target_tags = [] ∨ candidate_tags = [] then 0
  else ((target_tags.filter (fun w => candidate_tags.contains w)).length : ℚ) /
    (max target_tags.length candidate_tags.length : ℚ)

/-- Evaluation of the score of candidate B against target A. -/
theorem collisionScore_AB :
    collisionScore capsuleA.tags.dedup capsuleA.domain capsuleB = 3/5 := by
  rw [show capsuleA.tags.dedup = ["ocean", "climate"] from by decide,
    show capsuleA.domain = "science" from rfl]
  unfold collisionScore
  rw [show capsuleB.tags.dedup = ["ocean", "policy"] from by decide]
  dsimp only
  rw [if_pos (by decide : (["ocean", "climate"] : List String) ≠ [] ∧
      (["ocean", "policy"] : List String) ≠ [])]
  rw [show ((["ocean", "climate"] : List String).filter
      (fun w => (["ocean", "policy"] : List String).contains w)) = ["ocean"] from by decide]
  rw [if_pos (show capsuleB.domain = "science" from rfl)]
  rw [pyRound_eval _ 3 600 (by norm_num)]
  norm_num

/-- Evaluation of the spec's scenario: `detect(A, threshold=0.3)` over the
store `[A, B]` returns exactly B, with score 0.6. -/
theorem detect_AB_eval :
    detect_collisions [capsuleA, capsuleB] "A" (3/10) = .ok [collisionB] := by
  unfold detect_collisions
  rw [show List.find? (fun c => c.id == "A") [capsuleA, capsuleB] = some capsuleA from rfl]
  unfold scoredCandidates
  rw [show ([capsuleA, capsuleB] : Store).filter (fun c => !(c.id == "A"))
      = [capsuleB] from rfl]
  simp [collisionScore_AB, sortDescBy, insertDescBy, collisionB,
    show capsuleB.id = "B" from rfl, show capsuleB.title = "Capsule B" from rfl,
    show capsuleB.domain = "science" from rfl,
    show (3:ℚ)/10 ≤ 3/5 from by norm_num]

/-- C1: the per-candidate score is exactly
`round(similarity × domain_bonus, 3)` with the spec's similarity formula and a
1.2 bonus for a matching domain; and in the spec's scenario, `detect(A, 0.3)`
over `[A, B]` returns B alone with score `round((1/2)·1.2, 3) = 0.6`. -/
theorem C1_score_formula_and_scenario :
    (∀ (target_tags : List String) (target_domain : String) (c : Capsule),
        collisionScore target_tags target_domain c =
          pyRound (specSimilarity target_tags c.tags.dedup *
            (if c.domain = target_domain then 12/10 else 1)) 3) ∧
    detect_collisions [capsuleA, capsuleB] "A" (3/10) = .ok [collisionB] ∧
    collisionB.score = 3/5 := by
  refine ⟨fun tt td c => ?_, detect_AB_eval, rfl⟩
  unfold collisionScore specSimilarity
  dsimp only
  by_cases h1 : tt = [] <;> by_cases h2 : c.tags.dedup = [] <;> simp [h1, h2]

/-! ## C2 — detect results: filter, sort, hard-coded truncation -/

/-- C2 counterexample: the detect endpoint accepts no limit parameter and
always truncates to the hard-coded 20, so it is false that the result is
truncated to *every* limit: at limit 0 detect still returns 1 result. -/
theorem C2_counterexample :
    ¬ ∀ limit : ℕ,
        ((detect_collisions [capsuleA, capsuleB] "A" (3/10)).toOption.getD []).length
          ≤ limit := by
  intro h
  have h0 := h 0
  rw [detect_AB_eval] at h0
  simp [Except.toOption] at h0

/-- C2 (amended): when the target exists, detect's result is exactly the
scored other capsules with `score ≥ threshold`, sorted descending by score and
truncated to at most 20 — the 20 is hard-coded, no caller limit exists. -/
theorem C2_detect_results (store : Store) (capsule_id : String) (threshold : ℚ)
    (res : List CollisionResult)
    (h : detect_collisions store capsule_id threshold = .ok res) :
    res.Pairwise (fun a b => b.score ≤ a.score) ∧
    res.length ≤ 20 ∧
    ∃ target, store.find? (fun c => c.id == capsule_id) = some target ∧
      res = (sortDescBy (fun a b => decide (a.score < b.score))
        ((scoredCandidates store capsule_id target).filter
          (fun r => decide (threshold ≤ r.score)))).take 20 ∧
      ∀ r ∈ res, threshold ≤ r.score ∧
        r ∈ scoredCandidates store capsule_id target := by
  unfold detect_collisions at h
  rcases hfind : store.find? (fun c => c.id == capsule_id) with _ | target
  · rw [hfind] at h; cases h
  · rw [hfind] at h
    have hres := (Except.ok.inj h).symm
    subst hres
    have hasymm : ∀ a b : CollisionResult,
        decide (a.score < b.score) = true → decide (b.score < a.score) = false := by
      intro a b hab
      rw [decide_eq_true_eq] at hab
      rw [decide_eq_false_iff_not]
      exact lt_asymm hab
    have htrans : ∀ a b c : CollisionResult,
        decide (a.score < b.score) = false → decide (b.score < c.score) = false →
        decide (a.score < c.score) = false := by
      intro a b c h1 h2
      rw [decide_eq_false_iff_not] at h1 h2 ⊢
      intro hlt
      exact absurd (lt_of_lt_of_le hlt (le_trans (not_lt.mp h2) (not_lt.mp h1)))
        (lt_irrefl _)
    refine ⟨?_, List.length_take_le _ _, target, hfind, rfl, fun r hr => ?_⟩
    · have hsorted := sortDescBy_pairwise (fun a b : CollisionResult =>
        decide (a.score < b.score)) hasymm htrans
        ((scoredCandidates store capsule_id target).filter
          (fun r => decide (threshold ≤ r.score)))
      exact (hsorted.sublist (List.take_sublist _ _)).imp
        (fun hab => not_lt.mp (of_decide_eq_false hab))
    · have hr' := mem_sortDescBy.mp (List.take_subset _ _ hr)
      have hm := List.mem_filter.mp hr'
      exact ⟨of_decide_eq_true hm.2, hm.1⟩

/-- Witness for C2 (amended) at the two-capsule scenario store. -/
theorem C2_detect_results_witness :
    ([collisionB] : List CollisionResult).Pairwise (fun a b => b.score ≤ a.score) ∧
    ([collisionB] : List CollisionResult).length ≤ 20 ∧
    ∃ target, (([capsuleA, capsuleB] : Store).find? (fun c => c.id == "A")) = some target ∧
      [collisionB] = (sortDescBy (fun a b => decide (a.score < b.score))
        ((scoredCandidates [capsuleA, capsuleB] "A" target).filter
          (fun r => decide ((3:ℚ)/10 ≤ r.score)))).take 20 ∧
      ∀ r ∈ ([collisionB] : List CollisionResult), (3:ℚ)/10 ≤ r.score ∧
        r ∈ scoredCandidates [capsuleA, capsuleB] "A" target :=
  C2_detect_results [capsuleA, capsuleB] "A" (3/10) [collisionB] detect_AB_eval

/-! ## C7 — list ordering and the (imperfect) hard cap -/

/-- A minimal capsule used to populate a large store. -/
def mkSmallCapsule (i : ℕ) : Capsule :=
  { id := toString i, title := "t", content := "c", source := none,
    domain := "general", tags := [], datm_score := 80, author := some "Kai",
    created_at := "2026", updated_at := "2026", metadata := none }

/-- A store holding 101 capsules. -/
def bigStore : Store := (List.range 101).map mkSmallCapsule

/-- C7 counterexample: `min(limit, 100)` only caps from above.  A negative
requested limit stays negative, and SQLite treats a negative `LIMIT` as *no
limit*: with 101 stored rows and `limit = -1`, all 101 come back — more than
the claimed hard cap of 100. -/
theorem C7_counterexample :
    100 < (list_capsules bigStore none none (-1)).length := by decide

/-- C7 (amended): list results are always ordered by `created_at` descending,
and for every *non-negative* requested limit the effective limit
`min(limit, 100)` caps the result at 100 records; a negative limit disables
the cap entirely. -/
theorem C7_list_sorted_and_capped (store : Store) (domain : Option String)
    (min_score : Option ℚ) (limit : ℤ) :
    (list_capsules store domain min_score limit).Pairwise
      (fun a b => strLt a.created_at b.created_at = false) ∧
    (0 ≤ limit → (list_capsules store domain min_score limit).length ≤ 100) := by
  have hasymm : ∀ a b : Capsule, strLt a.created_at b.created_at = true →
      strLt b.created_at a.created_at = false :=
    fun a b h => bytesLt_asymm _ _ h
  have htrans : ∀ a b c : Capsule, strLt a.created_at b.created_at = false →
      strLt b.created_at c.created_at = false →
      strLt a.created_at c.created_at = false :=
    fun a b c h1 h2 => bytesLt_not_trans _ _ _ h1 h2
  unfold list_capsules
  dsimp only
  constructor
  · split_ifs with hneg
    · exact sortDescBy_pairwise _ hasymm htrans _
    · exact (sortDescBy_pairwise _ hasymm htrans _).sublist (List.take_sublist _ _)
  · intro hlim
    split_ifs with hneg
    · exfalso; omega
    · calc (List.take (min limit 100).toNat _).length
          ≤ (min limit 100).toNat := List.length_take_le _ _
        _ ≤ 100 := by omega

/-- Witness for C7 (amended) at a singleton store and limit 20. -/
theorem C7_list_sorted_and_capped_witness :
    (list_capsules [capsuleA] none none 20).Pairwise
      (fun a b => strLt a.created_at b.created_at = false) ∧
    ((0:ℤ) ≤ 20 ∧ (list_capsules [capsuleA] none none 20).length ≤ 100) :=
  ⟨(C7_list_sorted_and_capped [capsuleA] none none 20).1,
   by decide,
   (C7_list_sorted_and_capped [capsuleA] none none 20).2 (by decide)⟩

/-! ## C8 — delete semantics -/

/-- Every capsule a list result returns is a stored capsule. -/
theorem list_capsules_subset (store : Store) (domain : Option String)
    (min_score : Option ℚ) (limit : ℤ) :
    ∀ c ∈ list_capsules store domain min_score limit, c ∈ store := by
  intro c hc
  unfold list_capsules at hc
  dsimp only at hc
  split_ifs at hc with hneg
  · exact List.mem_of_mem_filter (mem_sortDescBy.mp hc)
  · exact List.mem_of_mem_filter (mem_sortDescBy.mp (List.take_subset _ _ hc))

/-- Every collision row detect returns names the id of a stored capsule. -/
theorem detect_result_ids (store : Store) (tid : String) (th : ℚ)
    (res : List CollisionResult) (h : detect_collisions store tid th = .ok res) :
    ∀ r ∈ res, ∃ c ∈ store, r.capsule_id = c.id := by
  unfold detect_collisions at h
  rcases hfind : store.find? (fun c => c.id == tid) with _ | target
  · rw [hfind] at h; cases h
  · rw [hfind] at h
    have hres := (Except.ok.inj h).symm
    subst hres
    intro r hr
    have hr' := mem_sortDescBy.mp (List.take_subset _ _ hr)
    have hm := (List.mem_filter.mp hr').1
    unfold scoredCandidates at hm
    rcases List.mem_map.mp hm with ⟨c, hc, rfl⟩
    exact ⟨c, List.mem_of_mem_filter hc, rfl⟩

/-- C8: delete 404s exactly when the id is absent (leaving the store as it
was), and a successful delete removes the id: afterwards `get` 404s and the id
appears in no `list` result and no `detect` result. -/
theorem C8_delete_spec :
    (∀ (store : Store) (capsule_id : String),
        delete_capsule store capsule_id = .error .notFound ↔
          ∀ c ∈ store, c.id ≠ capsule_id) ∧
    (∀ (store : Store) (capsule_id : String),
        delete_capsule store capsule_id = .error .notFound →
          storeAfterDelete store capsule_id = store) ∧
    (∀ (store : Store) (capsule_id : String) (s' : Store),
        delete_capsule store capsule_id = .ok s' →
          (∀ c ∈ s', c.id ≠ capsule_id) ∧
          get_capsule s' capsule_id = .error .notFound ∧
          (∀ domain min_score limit,
              ∀ c ∈ list_capsules s' domain min_score limit, c.id ≠ capsule_id) ∧
          (∀ tid th res, detect_collisions s' tid th = .ok res →
              ∀ r ∈ res, r.capsule_id ≠ capsule_id)) := by
  have hmem : ∀ (store : Store) (capsule_id : String),
      ∀ c ∈ store.filter (fun c => decide (c.id ≠ capsule_id)), c.id ≠ capsule_id :=
    fun store capsule_id c hc => of_decide_eq_true (List.mem_filter.mp hc).2
  refine ⟨fun store capsule_id => ⟨?_, ?_⟩, fun store capsule_id h => ?_,
    fun store capsule_id s' h => ?_⟩
  · intro h
    unfold delete_capsule at h
    dsimp only at h
    split_ifs at h with hlen
    · have hfe : store.filter (fun c => decide (c.id ≠ capsule_id)) = store :=
        (List.filter_sublist _).eq_of_length hlen
      intro c hc
      exact of_decide_eq_true ((List.filter_eq_self.mp hfe) c hc)
  · intro hall
    have hfe : store.filter (fun c => decide (c.id ≠ capsule_id)) = store :=
      List.filter_eq_self.mpr (fun c hc => decide_eq_true (hall c hc))
    unfold delete_capsule
    rw [hfe, if_pos rfl]
  · unfold storeAfterDelete
    rw [h]
  · unfold delete_capsule at h
    dsimp only at h
    split_ifs at h with hlen
    · have hs := Except.ok.inj h
      subst hs
      refine ⟨hmem store capsule_id, ?_, ?_, ?_⟩
      · unfold get_capsule
        rw [List.find?_eq_none.mpr (fun c hc => ?_)]
        simp only [beq_iff_eq]
        exact hmem store capsule_id c hc
      · intro domain min_score limit c hc
        exact hmem store capsule_id c (list_capsules_subset _ domain min_score limit c hc)
      · intro tid th res hdet r hr
        rcases detect_result_ids _ tid th res hdet r hr with ⟨c, hc, hid⟩
        rw [hid]
        exact hmem store capsule_id c hc

/-- Witness for C8: a miss 404s; deleting B from `[A, B]` leaves `[A]`, where
`get B` 404s. -/
theorem C8_delete_spec_witness :
    delete_capsule [capsuleA] "Z" = .error .notFound ∧
    get_capsule [capsuleA] "B" = .error .notFound :=
  ⟨(C8_delete_spec.1 [capsuleA] "Z").mpr (by decide),
   (C8_delete_spec.2.2 [capsuleA, capsuleB] "B" [capsuleA] rfl).2.1⟩

/-! ## C10 — an empty-string domain behaves as an absent domain -/

/-- C10: at create, `domain=""` is falsy for `capsule.domain or "general"`, so
the call behaves exactly like an absent domain and the capsule is stored with
domain "general"; at list, `if domain:` skips the filter for `domain=""`
exactly as for an absent domain. -/
theorem C10_empty_domain_as_absent :
    (∀ (md5hex8 : String → String) (timestamp now : String) (store : Store)
        (raw : CapsuleCreateRaw) (t g b i : ℚ),
        create_capsule md5hex8 timestamp now store { raw with domain := some "" } t g b i =
          create_capsule md5hex8 timestamp now store { raw with domain := none } t g b i) ∧
    (∀ (md5hex8 : String → String) (timestamp now : String) (store : Store)
        (raw : CapsuleCreateRaw) (t g b i : ℚ) (s' : Store) (c : Capsule),
        raw.domain = some "" →
        create_capsule md5hex8 timestamp now store raw t g b i = .ok (s', c) →
        c.domain = "general") ∧
    (∀ (store : Store) (min_score : Option ℚ) (limit : ℤ),
        list_capsules store (some "") min_score limit =
          list_capsules store none min_score limit) := by
  refine ⟨fun md5hex8 timestamp now store raw t g b i => rfl,
    fun md5hex8 timestamp now store raw t g b i s' c hdom h => ?_,
    fun store min_score limit => rfl⟩
  rcases hT : raw.title with _ | t'
  · simp [create_capsule, validate_capsule_create, hT] at h
  · rcases hC : raw.content with _ | c'
    · simp [create_capsule, validate_capsule_create, hT, hC] at h
    · simp only [create_capsule, validate_capsule_create, hT, hC] at h
      have hc := (Prod.mk.injEq _ _ _ _ ▸ Except.ok.inj h).2
      rw [← hc]
      simp [pyOrStr, hdom]

/-- Witness for C10 at a concrete create call with `domain = some ""`. -/
theorem C10_empty_domain_as_absent_witness :
    (((create_capsule mockHash "20260101120000" "2026-01-01T12:00:00" []
        { rawTwin1 with domain := some "" } 80 80 80 80).toOption.getD
          dummyPair).2).domain = "general" :=
  C10_empty_domain_as_absent.2.1 mockHash "20260101120000" "2026-01-01T12:00:00" []
    { rawTwin1 with domain := some "" } 80 80 80 80 _ _ rfl rfl
